import Mathlib

/-!
Verification of the evaluation core of a small Lisp interpreter
(`src/src/interpreter.rs` of flo-l/lisp_rust).

The interpreter module (`Interpreter::new`, `Interpreter::init`,
`Interpreter::evaluate`, `Interpreter::add_str_to_current_scope`) is embedded
faithfully.  The collaborating modules (`value.rs`, `scope.rs`,
`string_interner`, `native.rs`, special forms) are not part of the sources;
their interfaces are modelled from the specification, and the bodies of
native procedures, user procedures and special forms are kept abstract as an
oracle parameter, since `interpreter.rs` only invokes them through function
pointers / trait objects.

A Rust `panic!` is modelled as `Except.error` carrying the panic message, so
`evaluate` has type `Interpreter → Value → Except String (Value × Interpreter)`
with the interpreter state threaded explicitly (`&mut self`).
-/

namespace LispRust

/-- Modelled from the spec: the fixed registry of host-implemented native
procedures registered by `Interpreter::init` (`native.rs` is not among the
sources); one tag per function pointer mentioned in `interpreter.rs`. -/
inductive NativeFn where
  | poly_eq | null_ | boolean_ | symbol_ | integer_ | char_ | string_
  | procedure_ | list_
  | char_integer | integer_char | number_string | string_number
  | symbol_string | string_symbol
  | plus | minus | multiply | quotient | remainder
  | eq | gt | ge | lt | le
  | list | first | rest
  | symbol_space
  deriving Repr, DecidableEq

/-- Modelled from the spec: the closed set of special-form tags (their
module is not among the sources; the evaluator only delegates to a form's
own `evaluate`). -/
inductive SpecialFormTag where
  | quote | define | if_ | lambda | let_
  deriving Repr, DecidableEq

/-- Modelled from the spec: the `Value` sum type of `value.rs` (not among the
sources): null, boolean, integer, character, string, symbol handle,
list/pair sequence, native-procedure handle, user procedure (parameter list,
body, captured environment frames), special-form tag, and condition. -/
inductive Value where
  | null : Value
  | boolean : Bool → Value
  | integer : Int → Value
  | character : Char → Value
  | string : String → Value
  | symbol : Nat → Value
  | list : List Value → Value
  | nativeProc : NativeFn → Value
  | proc : List Nat → Value → List (List (Nat × Value)) → Value
  | specialForm : SpecialFormTag → Value
  | condition : Value → Value
  deriving Repr

/-- A single environment frame: a mapping symbol-handle to Value. -/
abbrev Frame := List (Nat × Value)

/-- Modelled from the spec: an environment is a chain of frames, innermost
first (`scope.rs` is not among the sources). -/
abbrev Scope := List Frame

/-- Modelled from the spec: the process-wide append-only symbol interner;
a handle is an index into the canonical string storage. -/
structure StringInterner where
  strings : List String
  deriving Repr, DecidableEq

namespace StringInterner

/-- Fresh, empty interner (`StringInterner::new`). -/
def new : StringInterner := ⟨[]⟩

/-- Modelled from the spec: `intern(text) → handle` is idempotent; a new
string is appended and receives the next index. -/
def intern (i : StringInterner) (s : String) : Nat × StringInterner :=
  match i.strings.findIdx? (· == s) with
  | some id => (id, i)
  | none => (i.strings.length, ⟨i.strings ++ [s]⟩)

/-- Modelled from the spec: `resolve(handle) → text`. -/
def resolve (i : StringInterner) (h : Nat) : Option String :=
  i.strings.get? h

end StringInterner

namespace Value

/-- Accessor corresponding to `Value::get_list` — `Some` exactly on the
list/pair shape. -/
def get_list : Value → Option (List Value)
  | .list l => some l
  | _ => none

/-- Accessor corresponding to `Value::get_special_form`. -/
def get_special_form : Value → Option SpecialFormTag
  | .specialForm t => some t
  | _ => none

/-- Accessor corresponding to `Value::get_symbol`. -/
def get_symbol : Value → Option Nat
  | .symbol h => some h
  | _ => none

/-- Accessor corresponding to `Value::get_native_fn_ptr`. -/
def get_native_fn_ptr : Value → Option NativeFn
  | .nativeProc f => some f
  | _ => none

/-- Accessor corresponding to `Value::get_proc` — the closure's parameter
list, body and captured environment. -/
def get_proc : Value → Option (List Nat × Value × List Frame)
  | .proc ps b env => some (ps, b, env)
  | _ => none

/-- Accessor corresponding to `Value::get_condition` — the condition's
payload. -/
def get_condition : Value → Option Value
  | .condition p => some p
  | _ => none

/-- `Value::clone` — values are plain data in the embedding. -/
def clone (v : Value) : Value := v

/-- Constructor helper `Value::new_condition`. -/
def new_condition (p : Value) : Value := .condition p

/-- Constructor helper `Value::new_string`. -/
def new_string (s : String) : Value := .string s

/-- Constructor helper `Value::new_native_proc`. -/
def new_native_proc (f : NativeFn) : Value := .nativeProc f

mutual

/-- Modelled from the spec: `Value::to_string(&interner)` — the printed form
of a value, suitable for direct display; symbols resolve through the
interner, strings display their text, lists print parenthesized. -/
def to_string : Value → StringInterner → String
  | .null, _ => "()"
  | .boolean true, _ => "#t"
  | .boolean false, _ => "#f"
  | .integer n, _ => toString n
  | .character c, _ => "#\\" ++ String.singleton c
  | .string s, _ => s
  | .symbol h, i => (i.resolve h).getD "<unknown symbol>"
  | .list l, i => "(" ++ String.intercalate " " (listToStrings l i) ++ ")"
  | .nativeProc _, _ => "#<native procedure>"
  | .proc _ _ _, _ => "#<procedure>"
  | .specialForm _, _ => "#<special form>"
  | .condition p, i => "#<condition: " ++ to_string p i ++ ">"

/-- Printed forms of the elements of a list, in order. -/
def listToStrings : List Value → StringInterner → List String
  | [], _ => []
  | v :: vs, i => to_string v i :: listToStrings vs i

end

end Value

namespace Scope

/-- `Scope::new()` — a single empty frame with no parent. -/
def new : Scope := [[]]

/-- Modelled from the spec: `Scope::add_symbol` inserts or overwrites the
binding in the current (innermost) frame; keys stay unique per frame. -/
def add_symbol (sc : Scope) (h : Nat) (v : Value) : Scope :=
  match sc with
  | [] => [[(h, v)]]
  | fr :: parents => ((h, v) :: fr.filter (fun p => p.1 ≠ h)) :: parents

/-- Modelled from the spec: `Scope::lookup_symbol` searches the current
frame, then each parent frame outward, returning the first match. -/
def lookup_symbol (sc : Scope) (h : Nat) : Option Value :=
  match sc with
  | [] => none
  | fr :: parents =>
    match fr.find? (fun p => p.1 == h) with
    | some p => some p.2
    | none => lookup_symbol parents h

end Scope

/-- The interpreter state of `interpreter.rs`: the symbol interner and the
current scope. -/
structure Interpreter where
  interner : StringInterner
  current_scope : Scope
  deriving Repr

/-- The behaviour of the collaborators `interpreter.rs` only calls through
pointers: native-procedure bodies (`f(self, &mut args)`), user-procedure
application (`p.evaluate(self, &args)`) and special-form evaluation
(`special_form.evaluate(self)`).  Each may mutate the interpreter, return
any Value, or panic (`Except.error`). -/
structure Oracles where
  natApply : NativeFn → Interpreter → List Value → Except String (Value × Interpreter)
  procApply : List Nat × Value × List Frame → Interpreter → List Value → Except String (Value × Interpreter)
  sfApply : SpecialFormTag → Interpreter → Except String (Value × Interpreter)

namespace Interpreter

/-- The condition inspection at the end of `Interpreter::evaluate`
(lines 86–90): a `Condition` result panics with its payload's printed form,
anything else is returned. -/
def check (it : Interpreter) (res : Value) : Except String (Value × Interpreter) :=
  match res.get_condition with
  | some x => .error (x.to_string it.interner)
  | none => .ok (res, it)

/-- `Interpreter::evaluate` (lines 59–92): dispatch on the shape of the
input value — non-empty list (evaluate head, then apply native procedure,
user procedure, or emit the not-callable condition), empty list
(empty-application condition), special form (delegate), symbol (environment
lookup, else undefined-ident condition), anything else self-evaluates —
followed by the condition check. -/
def evaluate (O : Oracles) (it : Interpreter) (v : Value) : Except String (Value × Interpreter) :=
  match v with
  | .list (func :: args) =>
    match evaluate O it func with
    | .error msg => .error msg
    | .ok (f, it1) =>
      match f.get_native_fn_ptr with
      | some nf =>
        match O.natApply nf it1 args with
        | .error msg => .error msg
        | .ok (res, it2) => check it2 res
      | none =>
        match f.get_proc with
        | some p =>
          match O.procApply p it1 args with
          | .error msg => .error msg
          | .ok (res, it2) => check it2 res
        | none =>
          check it1 (Value.new_condition (Value.new_string
            ("tried to call " ++ f.to_string it1.interner ++ ", which is not possible")))
  | .list [] =>
    check it (Value.new_condition (Value.new_string "tried to evaluate ()"))
  | .specialForm sf =>
    match O.sfApply sf it with
    | .error msg => .error msg
    | .ok (res, it2) => check it2 res
  | .symbol h =>
    check it ((it.current_scope.lookup_symbol h).getD
      (Value.new_condition (Value.new_string
        ("undefined ident: " ++ (Value.symbol h).to_string it.interner))))
  | other => check it other.clone

/-- `Interpreter::add_str_to_current_scope` (lines 94–97): intern the name,
bind the value to the handle in the current scope. -/
def add_str_to_current_scope (it : Interpreter) (s : String) (v : Value) : Interpreter :=
  let (id, interner1) := it.interner.intern s
  { interner := interner1, current_scope := it.current_scope.add_symbol id v }

/-- `Interpreter::init` (lines 21–57): populate the global scope with the
fixed startup set of native procedures, in source order. -/
def init (it : Interpreter) : Interpreter :=
  ((((((((((((((((((((((((((((it.add_str_to_current_scope "eq?" (Value.new_native_proc .poly_eq)
    ).add_str_to_current_scope "null?" (Value.new_native_proc .null_)
    ).add_str_to_current_scope "boolean?" (Value.new_native_proc .boolean_)
    ).add_str_to_current_scope "symbol?" (Value.new_native_proc .symbol_)
    ).add_str_to_current_scope "integer?" (Value.new_native_proc .integer_)
    ).add_str_to_current_scope "char?" (Value.new_native_proc .char_)
    ).add_str_to_current_scope "string?" (Value.new_native_proc .string_)
    ).add_str_to_current_scope "procedure?" (Value.new_native_proc .procedure_)
    ).add_str_to_current_scope "list?" (Value.new_native_proc .list_)
    ).add_str_to_current_scope "char->integer" (Value.new_native_proc .char_integer)
    ).add_str_to_current_scope "integer->char" (Value.new_native_proc .integer_char)
    ).add_str_to_current_scope "number->string" (Value.new_native_proc .number_string)
    ).add_str_to_current_scope "string->number" (Value.new_native_proc .string_number)
    ).add_str_to_current_scope "symbol->string" (Value.new_native_proc .symbol_string)
    ).add_str_to_current_scope "string->symbol" (Value.new_native_proc .string_symbol)
    ).add_str_to_current_scope "+" (Value.new_native_proc .plus)
    ).add_str_to_current_scope "-" (Value.new_native_proc .minus)
    ).add_str_to_current_scope "*" (Value.new_native_proc .multiply)
    ).add_str_to_current_scope "quotient" (Value.new_native_proc .quotient)
    ).add_str_to_current_scope "remainder" (Value.new_native_proc .remainder)
    ).add_str_to_current_scope "=" (Value.new_native_proc .eq)
    ).add_str_to_current_scope ">" (Value.new_native_proc .gt)
    ).add_str_to_current_scope ">=" (Value.new_native_proc .ge)
    ).add_str_to_current_scope "<" (Value.new_native_proc .lt)
    ).add_str_to_current_scope "<=" (Value.new_native_proc .le)
    ).add_str_to_current_scope "list" (Value.new_native_proc .list)
    ).add_str_to_current_scope "first" (Value.new_native_proc .first)
    ).add_str_to_current_scope "rest" (Value.new_native_proc .rest)
    ).add_str_to_current_scope "symbol-space" (Value.new_native_proc .symbol_space)

/-- `Interpreter::new()`: fresh interner and scope, then `init`. -/
def new : Interpreter :=
  init { interner := StringInterner.new, current_scope := Scope.new }

end Interpreter

/-- A concrete collaborator behaviour used to instantiate theorems on
concrete inputs: every native procedure, user procedure and special form
returns `null` and leaves the interpreter unchanged. -/
def noopOracles : Oracles where
  natApply := fun _ it _ => .ok (Value.null, it)
  procApply := fun _ it _ => .ok (Value.null, it)
  sfApply := fun _ it => .ok (Value.null, it)

/-- An interpreter before `init`: fresh interner, single empty frame. -/
def emptyIt : Interpreter :=
  { interner := StringInterner.new, current_scope := Scope.new }

/-- A reachable interpreter state whose scope binds handle 0 (the interned
name `x`) to a condition value: obtained from a fresh interner by interning
`x` and calling `Scope::add_symbol` (both public operations). -/
def condBoundIt : Interpreter :=
  { interner := ⟨["x"]⟩, current_scope := [[(0, Value.condition (Value.string "boom"))]] }

/-- An interpreter whose interner knows `x` (handle 0) and `y` (handle 1)
and whose scope binds only handle 0, to the integer 7. -/
def boundIt : Interpreter :=
  { interner := ⟨["x", "y"]⟩, current_scope := [[(0, Value.integer 7)]] }

/-- The fixed startup set of names registered by `Interpreter::init`. -/
def startupNames : List String :=
  ["null?", "boolean?", "symbol?", "integer?", "char?", "string?", "procedure?", "list?",
   "char->integer", "integer->char", "number->string", "string->number",
   "symbol->string", "string->symbol",
   "+", "-", "*", "quotient", "remainder",
   "=", ">", ">=", "<", "<=",
   "list", "first", "rest", "eq?", "symbol-space"]

/-- How many bindings for handle `h` exist across the whole frame chain. -/
def Scope.bindingCount (sc : Scope) (h : Nat) : Nat :=
  (sc.map (fun fr => (fr.filter (fun p => p.1 == h)).length)).sum

/-- `s` is interned and its handle is bound exactly once in `it`'s
environment, to a native-procedure value. -/
def boundOnceToNative (it : Interpreter) (s : String) : Bool :=
  let id := (it.interner.intern s).1
  (match it.current_scope.lookup_symbol id with
   | some v => v.get_native_fn_ptr.isSome
   | none => false)
  && (Scope.bindingCount it.current_scope id == 1)

section Helpers

open Interpreter

/-- Unfolding of `evaluate` on a non-empty list expression. -/
theorem evaluate_cons (O : Oracles) (it : Interpreter) (func : Value) (args : List Value) :
    evaluate O it (.list (func :: args)) =
      match evaluate O it func with
      | .error msg => .error msg
      | .ok (f, it1) =>
        match f.get_native_fn_ptr with
        | some nf =>
          match O.natApply nf it1 args with
          | .error msg => .error msg
          | .ok (res, it2) => check it2 res
        | none =>
          match f.get_proc with
          | some p =>
            match O.procApply p it1 args with
            | .error msg => .error msg
            | .ok (res, it2) => check it2 res
          | none =>
            check it1 (Value.new_condition (Value.new_string
              ("tried to call " ++ f.to_string it1.interner ++ ", which is not possible"))) :=
  rfl

/-- Unfolding of `evaluate` on a special-form tag. -/
theorem evaluate_sf (O : Oracles) (it : Interpreter) (sf : SpecialFormTag) :
    evaluate O it (.specialForm sf) =
      match O.sfApply sf it with
      | .error msg => .error msg
      | .ok (res, it2) => check it2 res :=
  rfl

/-- The condition inspection returns normally exactly on non-conditions,
and then returns its input and leaves the state untouched. -/
theorem check_ok_inv {it : Interpreter} {res r : Value} {it' : Interpreter}
    (h : check it res = .ok (r, it')) :
    res.get_condition = none ∧ r = res ∧ it' = it := by
  unfold Interpreter.check at h
  split at h
  · exact Except.noConfusion h
  · next hx => cases h; exact ⟨hx, rfl, rfl⟩

/-- A value that survives the condition inspection is not a condition. -/
theorem check_ok_no_condition {it : Interpreter} {res r : Value} {it' : Interpreter}
    (h : check it res = .ok (r, it')) : r.get_condition = none := by
  obtain ⟨hn, hr, _⟩ := check_ok_inv h
  rw [hr]
  exact hn

/-- Every normally returned result of `evaluate` has passed the condition
inspection, hence is not a condition. -/
theorem evaluate_ok_not_cond (O : Oracles) (it : Interpreter) (v : Value)
    (r : Value) (it' : Interpreter)
    (h : evaluate O it v = .ok (r, it')) : r.get_condition = none := by
  cases v
  case list l =>
    cases l with
    | nil => exact check_ok_no_condition h
    | cons func args =>
      rw [evaluate_cons] at h
      split at h
      · exact Except.noConfusion h
      · split at h
        · split at h
          · exact Except.noConfusion h
          · exact check_ok_no_condition h
        · split at h
          · split at h
            · exact Except.noConfusion h
            · exact check_ok_no_condition h
          · exact check_ok_no_condition h
  case specialForm sf =>
    rw [evaluate_sf] at h
    split at h
    · exact Except.noConfusion h
    · exact check_ok_no_condition h
  all_goals exact check_ok_no_condition h

end Helpers

section Claims

open Interpreter

/-- C1: for every input Value, `evaluate` dispatches over the value's shape
in exactly this precedence order: non-empty list/pair handling first, then
empty list/pair, then special-form tag (delegated to that form's own
evaluate), then symbol lookup, and finally, for every other shape,
self-evaluation. -/
theorem evaluate_dispatch_order (O : Oracles) (it : Interpreter) (v : Value) :
    evaluate O it v =
      match v.get_list with
      | some (func :: args) =>
        (match evaluate O it func with
         | .error msg => .error msg
         | .ok (f, it1) =>
           match f.get_native_fn_ptr with
           | some nf =>
             match O.natApply nf it1 args with
             | .error msg => .error msg
             | .ok (res, it2) => check it2 res
           | none =>
             match f.get_proc with
             | some p =>
               match O.procApply p it1 args with
               | .error msg => .error msg
               | .ok (res, it2) => check it2 res
             | none =>
               check it1 (Value.new_condition (Value.new_string
                 ("tried to call " ++ f.to_string it1.interner ++ ", which is not possible"))))
      | some [] =>
        check it (Value.new_condition (Value.new_string "tried to evaluate ()"))
      | none =>
        match v.get_special_form with
        | some sf =>
          (match O.sfApply sf it with
           | .error msg => .error msg
           | .ok (res, it2) => check it2 res)
        | none =>
          match v.get_symbol with
          | some h =>
            check it ((it.current_scope.lookup_symbol h).getD
              (Value.new_condition (Value.new_string
                ("undefined ident: " ++ v.to_string it.interner))))
          | none => check it v.clone := by
  cases v
  case list l => cases l <;> rfl
  all_goals rfl

/-- C2: a Condition produced during evaluation is never used as a normal
operand by a further step (any intermediate result that `evaluate` returns
normally is condition-free), and a Condition reaching the evaluation
boundary makes the condition inspection halt loudly (panic with the
payload's text) instead of returning it. -/
theorem condition_propagation (O : Oracles) (it itc : Interpreter) (v : Value) :
    (∀ r it', evaluate O it v = .ok (r, it') → r.get_condition = none) ∧
    (∀ p, check itc (Value.condition p) = .error (p.to_string itc.interner)) :=
  ⟨fun r it' h => evaluate_ok_not_cond O it v r it' h, fun _ => rfl⟩

/-- C2 witness at concrete inputs. -/
theorem condition_propagation_witness :
    (Value.boolean true).get_condition = none ∧
    check emptyIt (Value.condition (Value.string "boom")) = .error "boom" :=
  ⟨(condition_propagation noopOracles emptyIt emptyIt (Value.boolean true)).1
      (Value.boolean true) emptyIt rfl,
   (condition_propagation noopOracles emptyIt emptyIt (Value.boolean true)).2
      (Value.string "boom")⟩

/-- C3: when the head of a non-empty list evaluates to a native procedure,
the evaluator invokes it with the evaluator state and the tail of the list
— the still-unevaluated argument expressions — whatever the native bodies
do; no argument expression is evaluated by the evaluator beforehand. -/
theorem native_call_unevaluated_args (O : Oracles) (it it1 : Interpreter)
    (func fv : Value) (args : List Value) (nf : NativeFn)
    (hhead : evaluate O it func = .ok (fv, it1))
    (hnat : fv.get_native_fn_ptr = some nf) :
    evaluate O it (Value.list (func :: args)) =
      match O.natApply nf it1 args with
      | .error msg => .error msg
      | .ok (res, it2) => check it2 res := by
  rw [evaluate_cons, hhead]
  simp only [hnat]

/-- C3 witness at concrete inputs. -/
theorem native_call_unevaluated_args_witness :
    evaluate noopOracles emptyIt (Value.nativeProc .plus) = .ok (Value.nativeProc .plus, emptyIt) ∧
    (Value.nativeProc .plus).get_native_fn_ptr = some .plus ∧
    evaluate noopOracles emptyIt (Value.list [Value.nativeProc .plus, Value.integer 1, Value.integer 2]) =
      match noopOracles.natApply .plus emptyIt [Value.integer 1, Value.integer 2] with
      | .error msg => .error msg
      | .ok (res, it2) => check it2 res :=
  ⟨rfl, rfl,
   native_call_unevaluated_args noopOracles emptyIt emptyIt (Value.nativeProc .plus)
     (Value.nativeProc .plus) [Value.integer 1, Value.integer 2] .plus rfl rfl⟩

/-- C4 counterexample: handle 0 (`x`) is bound in the environment to a
condition value, yet `evaluate(Symbol(0))` does not return that value — it
panics (the claim as stated requires `evaluate(Symbol(s)) == v` for every
bound `v`). -/
theorem symbol_lookup_counterexample :
    condBoundIt.current_scope.lookup_symbol 0 = some (Value.condition (Value.string "boom")) ∧
    evaluate noopOracles condBoundIt (Value.symbol 0) = .error "boom" :=
  ⟨rfl, rfl⟩

/-- C4 (amended): a symbol bound to a non-condition value `v` evaluates to
`v` (state unchanged); a symbol bound to a condition makes evaluation halt
loudly with that condition's payload text; an unbound interned symbol makes
evaluation halt with the undefined-identifier condition text, which
contains the symbol's printed name. -/
theorem symbol_lookup_amended (O : Oracles) (it : Interpreter) (s : Nat) :
    (∀ v, it.current_scope.lookup_symbol s = some v → v.get_condition = none →
      evaluate O it (Value.symbol s) = .ok (v, it)) ∧
    (∀ v p, it.current_scope.lookup_symbol s = some v → v.get_condition = some p →
      evaluate O it (Value.symbol s) = .error (p.to_string it.interner)) ∧
    (∀ name, it.current_scope.lookup_symbol s = none → it.interner.resolve s = some name →
      evaluate O it (Value.symbol s) = .error ("undefined ident: " ++ name)) := by
  refine ⟨?_, ?_, ?_⟩
  · intro v hb hnc
    simp only [evaluate, hb, Option.getD_some, check, hnc]
  · intro v p hb hc
    simp only [evaluate, hb, Option.getD_some, check, hc]
  · intro name hnb hres
    simp only [evaluate, hnb, Option.getD_none, check, Value.new_condition, Value.new_string,
      Value.get_condition, Value.to_string, hres, Option.getD_some]

/-- C4 (amended) witness at concrete inputs, one per clause. -/
theorem symbol_lookup_amended_witness :
    boundIt.current_scope.lookup_symbol 0 = some (Value.integer 7) ∧
    (Value.integer 7).get_condition = none ∧
    evaluate noopOracles boundIt (Value.symbol 0) = .ok (Value.integer 7, boundIt) ∧
    condBoundIt.current_scope.lookup_symbol 0 = some (Value.condition (Value.string "boom")) ∧
    (Value.condition (Value.string "boom")).get_condition = some (Value.string "boom") ∧
    evaluate noopOracles condBoundIt (Value.symbol 0) = .error "boom" ∧
    boundIt.current_scope.lookup_symbol 1 = none ∧
    boundIt.interner.resolve 1 = some "y" ∧
    evaluate noopOracles boundIt (Value.symbol 1) = .error ("undefined ident: " ++ "y") :=
  ⟨rfl, rfl, (symbol_lookup_amended noopOracles boundIt 0).1 (Value.integer 7) rfl rfl,
   rfl, rfl,
   (symbol_lookup_amended noopOracles condBoundIt 0).2.1 (Value.condition (Value.string "boom"))
     (Value.string "boom") rfl rfl,
   rfl, rfl, (symbol_lookup_amended noopOracles boundIt 1).2.2 "y" rfl rfl⟩

/-- C5: evaluating the empty list always yields the empty-application
condition (here: the panic carrying its text), and that text is distinct
from every not-callable condition text. -/
theorem empty_application_condition (O : Oracles) (it : Interpreter) :
    evaluate O it (Value.list []) = .error "tried to evaluate ()" ∧
    ∀ s : String, "tried to evaluate ()" ≠ "tried to call " ++ s ++ ", which is not possible" := by
  refine ⟨rfl, ?_⟩
  intro s h
  have hl := congrArg String.length h
  simp only [String.length_append] at hl
  have h1 : ("tried to evaluate ()" : String).length = 20 := rfl
  have h2 : ("tried to call " : String).length = 14 := rfl
  have h3 : (", which is not possible" : String).length = 23 := rfl
  rw [h1, h2, h3] at hl
  omega

/-- C5 witness at concrete inputs. -/
theorem empty_application_condition_witness :
    evaluate noopOracles emptyIt (Value.list []) = .error "tried to evaluate ()" ∧
    "tried to evaluate ()" ≠ "tried to call " ++ "5" ++ ", which is not possible" :=
  ⟨(empty_application_condition noopOracles emptyIt).1,
   (empty_application_condition noopOracles emptyIt).2 "5"⟩

/-- C6: a non-empty list whose evaluated head is neither a native procedure
nor a user procedure yields the not-callable condition, whose text embeds
the printed form of the offending head value. -/
theorem not_callable_condition (O : Oracles) (it it1 : Interpreter)
    (func fv : Value) (args : List Value)
    (hhead : evaluate O it func = .ok (fv, it1))
    (hnf : fv.get_native_fn_ptr = none) (hp : fv.get_proc = none) :
    evaluate O it (Value.list (func :: args)) =
      .error ("tried to call " ++ fv.to_string it1.interner ++ ", which is not possible") := by
  rw [evaluate_cons, hhead]
  simp only [hnf, hp]
  rfl

/-- C6 witness: the spec scenario `(5 1 2)`. -/
theorem not_callable_condition_witness :
    evaluate noopOracles emptyIt (Value.integer 5) = .ok (Value.integer 5, emptyIt) ∧
    (Value.integer 5).get_native_fn_ptr = none ∧
    (Value.integer 5).get_proc = none ∧
    evaluate noopOracles emptyIt (Value.list [Value.integer 5, Value.integer 1, Value.integer 2]) =
      .error ("tried to call " ++ (Value.integer 5).to_string emptyIt.interner ++ ", which is not possible") ∧
    ("tried to call " ++ (Value.integer 5).to_string emptyIt.interner ++ ", which is not possible") =
      "tried to call 5, which is not possible" :=
  ⟨rfl, rfl, rfl,
   not_callable_condition noopOracles emptyIt emptyIt (Value.integer 5) (Value.integer 5)
     [Value.integer 1, Value.integer 2] rfl rfl rfl,
   rfl⟩

/-- C7 counterexample: a condition value is not a list/pair, not a special
form and not a symbol, yet it does not self-evaluate — evaluation panics
with the payload text instead of returning the value unchanged. -/
theorem self_evaluation_counterexample :
    (Value.condition (Value.string "boom")).get_list = none ∧
    (Value.condition (Value.string "boom")).get_special_form = none ∧
    (Value.condition (Value.string "boom")).get_symbol = none ∧
    evaluate noopOracles emptyIt (Value.condition (Value.string "boom")) = .error "boom" :=
  ⟨rfl, rfl, rfl, rfl⟩

/-- C7 (amended): every value that is not a list/pair, not a special-form
tag, not a symbol, and not a condition — in particular booleans, integers,
characters and strings — self-evaluates: the result is the input itself,
unchanged, with the interpreter state untouched. -/
theorem self_evaluation_amended (O : Oracles) (it : Interpreter) (v : Value)
    (h1 : v.get_list = none) (h2 : v.get_special_form = none)
    (h3 : v.get_symbol = none) (h4 : v.get_condition = none) :
    evaluate O it v = .ok (v, it) := by
  cases v
  case list l => exact absurd h1 (by simp [Value.get_list])
  case specialForm sf => exact absurd h2 (by simp [Value.get_special_form])
  case symbol hs => exact absurd h3 (by simp [Value.get_symbol])
  case condition p => exact absurd h4 (by simp [Value.get_condition])
  all_goals rfl

/-- C7 (amended) witness at a concrete input. -/
theorem self_evaluation_amended_witness :
    (Value.integer 9).get_list = none ∧
    (Value.integer 9).get_special_form = none ∧
    (Value.integer 9).get_symbol = none ∧
    (Value.integer 9).get_condition = none ∧
    evaluate noopOracles emptyIt (Value.integer 9) = .ok (Value.integer 9, emptyIt) :=
  ⟨rfl, rfl, rfl, rfl,
   self_evaluation_amended noopOracles emptyIt (Value.integer 9) rfl rfl rfl rfl⟩

/-- C8: after `Interpreter::new()`, every name of the fixed startup set is
interned and its handle is bound in the global environment exactly once, to
a native-procedure value. -/
theorem startup_bindings : ∀ s ∈ startupNames, boundOnceToNative Interpreter.new s = true := by
  intro s hs
  fin_cases hs <;> rfl

/-- C8 witness at the concrete name `+`. -/
theorem startup_bindings_witness :
    "+" ∈ startupNames ∧ boundOnceToNative Interpreter.new "+" = true :=
  ⟨by decide, startup_bindings "+" (by decide)⟩

/-- C9: `evaluate` never returns a Condition value to its caller — whenever
the computed result is a condition the condition inspection panics at that
depth — so every normally returned value differs from every condition. -/
theorem no_condition_returned (O : Oracles) (it : Interpreter) (v : Value)
    (r : Value) (it' : Interpreter)
    (h : evaluate O it v = .ok (r, it')) :
    ∀ p, r ≠ Value.condition p := by
  intro p hr
  have hc := evaluate_ok_not_cond O it v r it' h
  rw [hr] at hc
  exact Option.noConfusion hc

/-- C9 witness at a concrete input. -/
theorem no_condition_returned_witness :
    evaluate noopOracles emptyIt (Value.integer 3) = .ok (Value.integer 3, emptyIt) ∧
    Value.integer 3 ≠ Value.condition (Value.string "x") :=
  ⟨rfl,
   no_condition_returned noopOracles emptyIt (Value.integer 3) (Value.integer 3) emptyIt rfl
     (Value.string "x")⟩

/-- C10: whenever evaluating a self-evaluating value (not a list/pair, not
a special-form tag, not a symbol) returns, the interpreter's state —
current scope and symbol interner — is exactly what it was before the
call. -/
theorem self_eval_state_unchanged (O : Oracles) (it : Interpreter) (v : Value)
    (r : Value) (it' : Interpreter)
    (h1 : v.get_list = none) (h2 : v.get_special_form = none) (h3 : v.get_symbol = none)
    (h : evaluate O it v = .ok (r, it')) :
    it'.interner = it.interner ∧ it'.current_scope = it.current_scope := by
  cases v
  case list l => exact absurd h1 (by simp [Value.get_list])
  case specialForm sf => exact absurd h2 (by simp [Value.get_special_form])
  case symbol hs => exact absurd h3 (by simp [Value.get_symbol])
  all_goals
    obtain ⟨-, -, hit⟩ := check_ok_inv h
    rw [hit]
    exact ⟨rfl, rfl⟩

/-- C10 witness at a concrete input. -/
theorem self_eval_state_unchanged_witness :
    (Value.boolean true).get_list = none ∧
    (Value.boolean true).get_special_form = none ∧
    (Value.boolean true).get_symbol = none ∧
    evaluate noopOracles emptyIt (Value.boolean true) = .ok (Value.boolean true, emptyIt) ∧
    (emptyIt.interner = emptyIt.interner ∧ emptyIt.current_scope = emptyIt.current_scope) :=
  ⟨rfl, rfl, rfl, rfl,
   self_eval_state_unchanged noopOracles emptyIt (Value.boolean true) (Value.boolean true)
     emptyIt rfl rfl rfl rfl⟩

end Claims

end LispRust
